import Mathlib

/-!
Verification of the text-extraction, wiring, and control-flow claims for the
two demo scripts `simpleagent.py` and `agent_architectures_interactive.py`.

The scripts inspect heterogeneous response objects with `hasattr` and Python
truthiness, so the model renders every consulted attribute as an `Option`:
for a string-valued attribute, `none` means the attribute is missing,
`some none` means it is present but holds Python `None`, and `some (some s)`
means it holds the string `s` (possibly empty, which is falsy in Python).
-/

/-- A content part of an event. `text` follows the three-state encoding above.
`function_call` records whether the attribute exists at all: the scripts only
ever call `hasattr(part, 'function_call')` and never read its value. -/
structure ContentPart where
  text : Option (Option String)
  function_call : Bool
deriving DecidableEq

/-- The `content` object of an event. Both fields use the three-state
encoding: `parts` may be missing, `None`, or an actual list (possibly empty,
which is falsy). -/
structure Content where
  parts : Option (Option (List ContentPart))
  text : Option (Option String)
deriving DecidableEq

/-- An event of a runner response. Every site in both scripts that reads
`event.content` guards it with `hasattr(event, 'content') and event.content`,
which treats a missing attribute and `None` identically, so `content` merges
the two into a single `none`. `author` is likewise only ever compared for
equality with a string, so a missing attribute and `None` are merged. -/
structure Event where
  content : Option Content
  text : Option (Option String)
  output_key : Option (Option String)
  author : Option String
deriving DecidableEq

/-- Naive substring search over character lists, used to model the Python
`in` operator on strings. -/
def isPrefixChars : List Char → List Char → Bool
  | [], _ => true
  | _ :: _, [] => false
  | a :: as, b :: bs => a = b && isPrefixChars as bs

/-- Membership of `needle` as a contiguous substring of `hay`, matching the
Python expression `needle in hay` (an empty needle is always contained). -/
def pyInStr (needle hay : String) : Bool :=
  go needle.data hay.data
where
  go (n : List Char) : List Char → Bool
    | [] => n.isEmpty
    | c :: t => isPrefixChars n (c :: t) || go n t

/-- The list comprehension
`[part.text for part in parts if hasattr(part, 'text') and part.text]`:
keeps the texts that are present, not `None`, and non-empty. -/
def truthyTexts (ps : List ContentPart) : List String :=
  ps.filterMap fun p =>
    match p.text with
    | some (some s) => if s = "" then none else some s
    | _ => none

/-- Python `str()` of a response value: `str(None)` is `"None"` and `str([])`
is `"[]"`. For a non-empty list Python renders each event with its default
`repr`, which embeds a memory address and is not representable; each event is
modelled by the placeholder `"<Event>"`. No claim depends on that case. -/
def str_response : Option (List Event) → String
  | none => "None"
  | some [] => "[]"
  | some l => "[" ++ String.intercalate ", " (l.map fun _ => "<Event>") ++ "]"

namespace Interactive

/-- Embedding of `extract_response_text` from
`agent_architectures_interactive.py` (lines 76-108). The result is the Python
return value: `some s` is the string `s`; `none` is Python `None`, reachable
because the code returns a `text` attribute after checking only `hasattr`,
never truthiness, on it. -/
def extract_response_text (response : Option (List Event)) : Option String :=
  match response with
  | some r =>
    match r.getLast? with
    | some last_event =>
      let fromContent : Option (Option String) :=
        match last_event.content with
        | some c =>
          let fromParts : Option (Option String) :=
            match c.parts with
            | some (some ps) =>
              if ps = [] then none
              else
                let text_parts := truthyTexts ps
                if text_parts = [] then none
                else some (some (String.join text_parts))
            | _ => none
          match fromParts with
          | some v => some v
          | none =>
            match c.text with
            | some v => some v
            | none => none
        | none => none
      match fromContent with
      | some v => v
      | none =>
        match last_event.text with
        | some v => v
        | none =>
          match last_event.output_key with
          | some v =>
            some ("Function executed: " ++
              match v with
              | some s => if s = "" then "Task completed" else s
              | none => "Task completed")
          | none => some "Response received but text content could not be extracted."
    | none => some "No response received."
  | none => some "No response received."

/-- The first in-loop branch of `extract_story_from_loop_response`
(lines 118-133): a non-function-call event whose concatenated truthy texts
are longer than 50 characters and do not contain `"APPROVED"`. -/
def storyBranch (event : Event) : Option String :=
  match event.content with
  | some c =>
    match c.parts with
    | some (some ps) =>
      if ps = [] then none
      else if ps.any (fun p => p.function_call) then none
      else
        let text_parts := truthyTexts ps
        if text_parts = [] then none
        else
          let story_text := String.join text_parts
          if story_text.length > 50 && !(pyInStr "APPROVED" story_text) then
            some story_text
          else none
    | _ => none
  | none => none

/-- The second in-loop branch of `extract_story_from_loop_response`
(lines 136-144): an event authored `RefinerAgent`, whose parts with a truthy
text longer than 50 characters are concatenated. -/
def refinerBranch (event : Event) : Option String :=
  if event.author = some "RefinerAgent" then
    match event.content with
    | some c =>
      match c.parts with
      | some (some ps) =>
        if ps = [] then none
        else
          let text_parts := ps.filterMap fun p =>
            match p.text with
            | some (some s) => if s != "" && s.length > 50 then some s else none
            | _ => none
          if text_parts = [] then none else some (String.join text_parts)
      | _ => none
    | none => none
  else none

/-- The `for event in reversed(response)` loop body: each event is tried
against the two branches in order, any hit returns immediately. -/
def storyScan : List Event → Option String
  | [] => none
  | event :: rest =>
    match storyBranch event with
    | some s => some s
    | none =>
      match refinerBranch event with
      | some s => some s
      | none => storyScan rest

/-- Embedding of `extract_story_from_loop_response` (lines 110-147). -/
def extract_story_from_loop_response (response : Option (List Event)) : Option String :=
  match response with
  | none => some "No response received."
  | some r =>
    if r = [] then some "No response received."
    else
      match storyScan r.reverse with
      | some s => some s
      | none => extract_response_text (some r)

/-- State-passing rendering of `extract_response_text`: alongside the Python
return value, every return site also yields the response object the caller
is left with. The source contains no assignment to the response list, its
events, or their parts, so each exit hands back the argument itself. -/
def extract_response_text_frame (response : Option (List Event)) :
    Option String × Option (List Event) :=
  match response with
  | some r =>
    match r.getLast? with
    | some last_event =>
      let fromContent : Option (Option String) :=
        match last_event.content with
        | some c =>
          let fromParts : Option (Option String) :=
            match c.parts with
            | some (some ps) =>
              if ps = [] then none
              else
                let text_parts := truthyTexts ps
                if text_parts = [] then none
                else some (some (String.join text_parts))
            | _ => none
          match fromParts with
          | some v => some v
          | none =>
            match c.text with
            | some v => some v
            | none => none
        | none => none
      match fromContent with
      | some v => (v, some r)
      | none =>
        match last_event.text with
        | some v => (v, some r)
        | none =>
          match last_event.output_key with
          | some v =>
            (some ("Function executed: " ++
              match v with
              | some s => if s = "" then "Task completed" else s
              | none => "Task completed"), some r)
          | none =>
            (some "Response received but text content could not be extracted.", some r)
    | none => (some "No response received.", some r)
  | none => (some "No response received.", none)

/-- State-passing rendering of `extract_story_from_loop_response`; the scan
only reads the events, and the fallback passes the same response object on
to `extract_response_text`. -/
def extract_story_from_loop_response_frame (response : Option (List Event)) :
    Option String × Option (List Event) :=
  match response with
  | none => (some "No response received.", none)
  | some r =>
    if r = [] then (some "No response received.", some r)
    else
      match storyScan r.reverse with
      | some s => (some s, some r)
      | none => extract_response_text_frame (some r)

end Interactive

namespace SimpleAgent

/-- State-passing rendering of the `simpleagent.py` `extract_response_text`:
even on the raising paths the response object is left as it was. -/
def extract_response_text_frame (response : Option (List Event)) :
    Except String String × Option (List Event) :=
  match response with
  | some r =>
    match r.getLast? with
    | some last_event =>
      match last_event.content with
      | some c =>
        match c.parts with
        | some none =>
          (.error "TypeError: argument of type NoneType is not iterable", some r)
        | some (some ps) =>
          let text_parts : List (Option String) := ps.filterMap fun p => p.text
          if text_parts.any fun t => t.isNone then
            (.error "TypeError: sequence item: expected str instance, NoneType found",
             some r)
          else (.ok (String.join (text_parts.filterMap id)), some r)
        | none => (.ok (str_response (some r)), some r)
      | none => (.ok (str_response (some r)), some r)
    | none => (.ok (str_response (some r)), some r)
  | none => (.ok (str_response none), none)

end SimpleAgent

namespace SimpleAgent

/-- Embedding of `extract_response_text` from `simpleagent.py` (lines 87-100).
This version can raise: it iterates a `parts` attribute that passed only a
`hasattr` check (so a `parts` that is `None` raises `TypeError`), and it
appends `part.text` after checking only `hasattr` (so `''.join` raises
`TypeError` when some collected text is `None`). `Except.error` carries the
exception rendered as text. -/
def extract_response_text (response : Option (List Event)) : Except String String :=
  match response with
  | some r =>
    match r.getLast? with
    | some last_event =>
      match last_event.content with
      | some c =>
        match c.parts with
        | some none => .error "TypeError: argument of type NoneType is not iterable"
        | some (some ps) =>
          let text_parts : List (Option String) := ps.filterMap fun p => p.text
          if text_parts.any fun t => t.isNone then
            .error "TypeError: sequence item: expected str instance, NoneType found"
          else .ok (String.join (text_parts.filterMap id))
        | none => .ok (str_response response)
      | none => .ok (str_response response)
    | none => .ok (str_response response)
  | none => .ok (str_response response)

end SimpleAgent

/-- The selection rule of claim C1 exactly as the claim words it: an event is
a matching text block when its content parts contain no function call and the
concatenated (truthy) text differs from the exact string `"APPROVED"`; no
length threshold, no substring test, no author test. -/
def claimC1_block (event : Event) : Option String :=
  match event.content with
  | some c =>
    match c.parts with
    | some (some ps) =>
      if ps = [] then none
      else if ps.any (fun p => p.function_call) then none
      else
        let text_parts := truthyTexts ps
        if text_parts = [] then none
        else
          let t := String.join text_parts
          if t = "APPROVED" then none else some t
    | _ => none
  | none => none

/-- Claim C1 as stated: scan the events newest to oldest, return the first
matching block, and only fall back to `extract_response_text` when no block
matches. -/
def claimC1_expected (response : Option (List Event)) : Option String :=
  match response with
  | none => some "No response received."
  | some r =>
    if r = [] then some "No response received."
    else
      match r.reverse.findSome? claimC1_block with
      | some s => some s
      | none => Interactive.extract_response_text (some r)

/-- The amended claim C1: the scan keeps the newest-to-oldest order and the
fallback, but an event is selected by the two source branches: either a
non-function-call block whose concatenated truthy texts are longer than 50
characters and do not contain `"APPROVED"` as a substring, or failing that a
`RefinerAgent`-authored event contributing its texts longer than 50
characters. -/
def storyAmended (response : Option (List Event)) : Option String :=
  match response with
  | none => some "No response received."
  | some r =>
    if r = [] then some "No response received."
    else
      match r.reverse.findSome? (fun e =>
          (Interactive.storyBranch e).orElse fun _ => Interactive.refinerBranch e) with
      | some s => some s
      | none => Interactive.extract_response_text (some r)

/-- The fallback cascade of claim C2, as a function of the last event alone:
first the concatenation of the non-empty text fields of the content parts,
else the content text attribute, else the event text attribute, else the
`Function executed:` message built from `output_key`, else the fixed
fallback string. -/
def claimC2_cascade (e : Event) : Option String :=
  let step1 : Option String :=
    match e.content with
    | some c =>
      match c.parts with
      | some (some ps) =>
        if truthyTexts ps = [] then none else some (String.join (truthyTexts ps))
      | _ => none
    | none => none
  match step1 with
  | some s => some s
  | none =>
    let step2 : Option (Option String) :=
      match e.content with
      | some c => c.text
      | none => none
    match step2 with
    | some v => v
    | none =>
      match e.text with
      | some v => v
      | none =>
        match e.output_key with
        | some v =>
          some ("Function executed: " ++
            match v with
            | some s => if s = "" then "Task completed" else s
            | none => "Task completed")
        | none => some "Response received but text content could not be extracted."

/-- A plain text part carrying a string, with no `function_call` attribute. -/
def textPart (s : String) : ContentPart :=
  { text := some (some s), function_call := false }

/-- An event whose content is a single plain text part. -/
def textEvent (s : String) : Event :=
  { content := some { parts := some (some [textPart s]), text := none },
    text := none, output_key := none, author := none }

/-- Concrete input for claim C1: the newest event is a short text block with
no function call, the older event carries a long story text. -/
def c1_input : Option (List Event) :=
  some [textEvent "A quiet tide rolled over the shore while the keeper counted the stars.",
        textEvent "hi"]

/-- Concrete input for claim C3: the last event has a content part whose
`text` attribute is present but holds Python `None`, the shape of a
function-call part in the SDK response format. -/
def c3_input : Option (List Event) :=
  some [{ content := some { parts := some (some [{ text := some none,
                                                   function_call := true }]),
                            text := none },
          text := none, output_key := none, author := none }]

/-- Concrete input for claim C3, second shape: the last event has a `parts`
attribute that is present but holds Python `None`. -/
def c3_input_none_parts : Option (List Event) :=
  some [{ content := some { parts := some none, text := none },
          text := none, output_key := none, author := none }]

/-- Static configuration of a plain `Agent(...)` construction. `tools` lists
the wrapped tool names: `google_search` as itself, `AgentTool(a)` as the name
of `a`, `FunctionTool(f)` as the name of `f`. `instruction_refs` lists the
state-key placeholders appearing in the instruction template, in order; the
prose of the instruction is not otherwise consulted by the scripts. -/
structure AgentCfg where
  name : String
  model : String
  instruction_refs : List String
  tools : List String
  output_key : Option String
deriving DecidableEq

/-- The agent graph built by the demos: plain agents and the SDK composites
`SequentialAgent`, `ParallelAgent`, and `LoopAgent` (the latter with its
`max_iterations` bound). -/
inductive AgentTree where
  | llm (cfg : AgentCfg)
  | seqA (name : String) (sub_agents : List AgentTree)
  | parA (name : String) (sub_agents : List AgentTree)
  | loopA (name : String) (sub_agents : List AgentTree) (max_iterations : Nat)

/-- The `max_iterations` of a loop node (zero elsewhere). -/
def maxIterations : AgentTree → Nat
  | .loopA _ _ n => n
  | _ => 0

/-- The immediate sub-agents of a composite node. -/
def childAgents : AgentTree → List AgentTree
  | .llm _ => []
  | .seqA _ s => s
  | .parA _ s => s
  | .loopA _ s _ => s

/-- The name at the root of a node. -/
def agentName : AgentTree → String
  | .llm c => c.name
  | .seqA n _ => n
  | .parA n _ => n
  | .loopA n _ _ => n

namespace Interactive

/-- Demo 2 `OutlineAgent` (lines 243-255). -/
def outline_agent : AgentCfg :=
  { name := "OutlineAgent", model := "gemini-2.5-flash-lite",
    instruction_refs := [], tools := [], output_key := some "blog_outline" }

/-- Demo 2 `WriterAgent` (lines 257-266). -/
def writer_agent : AgentCfg :=
  { name := "WriterAgent", model := "gemini-2.5-flash-lite",
    instruction_refs := ["blog_outline"], tools := [], output_key := some "blog_draft" }

/-- Demo 2 `EditorAgent` (lines 268-277). -/
def editor_agent : AgentCfg :=
  { name := "EditorAgent", model := "gemini-2.5-flash-lite",
    instruction_refs := ["blog_draft"], tools := [], output_key := some "final_blog" }

/-- Demo 2 root `SequentialAgent` (lines 280-283). -/
def demo2_root_agent : AgentTree :=
  .seqA "BlogPipeline" [.llm outline_agent, .llm writer_agent, .llm editor_agent]

/-- Demo 3 `TechResearcher` (lines 315-325). -/
def tech_researcher : AgentCfg :=
  { name := "TechResearcher", model := "gemini-2.5-flash-lite",
    instruction_refs := [], tools := ["google_search"], output_key := some "tech_research" }

/-- Demo 3 `HealthResearcher` (lines 327-337). -/
def health_researcher : AgentCfg :=
  { name := "HealthResearcher", model := "gemini-2.5-flash-lite",
    instruction_refs := [], tools := ["google_search"], output_key := some "health_research" }

/-- Demo 3 `FinanceResearcher` (lines 339-349). -/
def finance_researcher : AgentCfg :=
  { name := "FinanceResearcher", model := "gemini-2.5-flash-lite",
    instruction_refs := [], tools := ["google_search"], output_key := some "finance_research" }

/-- Demo 3 `AggregatorAgent` (lines 352-371); its instruction template
interpolates the three research output keys. -/
def aggregator_agent : AgentCfg :=
  { name := "AggregatorAgent", model := "gemini-2.5-flash-lite",
    instruction_refs := ["tech_research", "health_research", "finance_research"],
    tools := [], output_key := some "executive_summary" }

/-- Demo 3 `ParallelAgent` (lines 374-377). -/
def parallel_research_team : AgentTree :=
  .parA "ParallelResearchTeam"
    [.llm tech_researcher, .llm health_researcher, .llm finance_researcher]

/-- Demo 3 root `SequentialAgent` (lines 379-382). -/
def demo3_root_agent : AgentTree :=
  .seqA "ResearchSystem" [parallel_research_team, .llm aggregator_agent]

/-- Demo 4 `InitialWriterAgent` (lines 404-413). -/
def initial_writer_agent : AgentCfg :=
  { name := "InitialWriterAgent", model := "gemini-2.5-flash-lite",
    instruction_refs := [], tools := [], output_key := some "current_story" }

/-- Demo 4 `CriticAgent` (lines 416-429). -/
def critic_agent : AgentCfg :=
  { name := "CriticAgent", model := "gemini-2.5-flash-lite",
    instruction_refs := ["current_story"], tools := [], output_key := some "critique" }

/-- Demo 4 `exit_loop` function tool (lines 432-434): returns a fixed status
dictionary. -/
def exit_loop : List (String × String) :=
  [("status", "approved"), ("message", "Story approved. Exiting refinement loop.")]

/-- Demo 4 `RefinerAgent` (lines 437-453), the only agent holding the
`exit_loop` function tool. -/
def refiner_agent : AgentCfg :=
  { name := "RefinerAgent", model := "gemini-2.5-flash-lite",
    instruction_refs := ["current_story", "critique"], tools := ["exit_loop"],
    output_key := some "current_story" }

/-- Demo 4 `LoopAgent` (lines 456-460), built with `max_iterations := 2`. -/
def story_refinement_loop : AgentTree :=
  .loopA "StoryRefinementLoop" [.llm critic_agent, .llm refiner_agent] 2

/-- Demo 4 root `SequentialAgent` (lines 462-465). -/
def demo4_root_agent : AgentTree :=
  .seqA "StoryPipeline" [.llm initial_writer_agent, story_refinement_loop]

end Interactive

/-- Modelled from the spec: the glossary describes `LoopAgent` as an external
SDK construct that runs its sub-agents repeatedly; the loop is bounded by the
`max_iterations` it was constructed with, and an iteration in which the
`exit_loop` function tool fires ends the loop early. `exits i` says whether
the exit tool fires during iteration `i`; the result is the number of
iterations executed. -/
def loopCount (exits : Nat → Bool) : Nat → Nat
  | 0 => 0
  | n + 1 => if exits 0 then 1 else 1 + loopCount (fun i => exits (i + 1)) n

/-- Python exceptions as the scripts distinguish them: `KeyboardInterrupt`
and `SystemExit` derive from `BaseException` and escape an
`except Exception` clause; everything else is carried with its message. -/
inductive PyExc where
  | keyboardInterrupt
  | systemExit
  | exception (msg : String)
deriving DecidableEq

/-- The outcome of awaiting one demo coroutine. -/
inductive DemoOutcome where
  | ok
  | raise (e : PyExc)
deriving DecidableEq

/-- What one iteration of the menu loop does next: show the menu again, break
out of the loop, or let an uncaught exception propagate out of `run`. -/
inductive LoopControl where
  | next
  | stop
  | propagate (e : PyExc)
deriving DecidableEq

/-- One menu-loop iteration: the lines `run` itself prints, and the control
transfer it performs. -/
structure MenuStep where
  printed : List String
  control : LoopControl
deriving DecidableEq

namespace Interactive

/-- One iteration of `AgentArchitecturesDemo.run` after the menu choice has
been read (lines 593-622). `printed` records only the prints issued by `run`
itself; demo output lives in the demo embeddings. `pauseEOF` says whether an
`input()` call hits end-of-file: the pause after a successful demo is guarded
by `except EOFError` (lines 611-615), the pause after a printed error
(line 622) is not, so end-of-file there escapes `run` as an `EOFError`. -/
def runMenuStep (choice : String) (demo : DemoOutcome) (pauseEOF : Bool) : MenuStep :=
  if choice = "1" ∨ choice = "2" ∨ choice = "3" ∨ choice = "4" then
    match demo with
    | .ok =>
      if pauseEOF then
        { printed := ["\n⏸️  Returning to main menu..."], control := .next }
      else { printed := [], control := .next }
    | .raise .keyboardInterrupt =>
      { printed := ["\n\n👋 Demo interrupted. Goodbye!"], control := .stop }
    | .raise .systemExit =>
      { printed := [], control := .propagate .systemExit }
    | .raise (.exception msg) =>
      if pauseEOF then
        { printed := ["\n❌ Error running demo: " ++ msg],
          control := .propagate (.exception "EOFError") }
      else { printed := ["\n❌ Error running demo: " ++ msg], control := .next }
  else if choice = "5" then
    if pauseEOF then
      { printed := ["\n⏸️  Returning to main menu..."], control := .next }
    else { printed := [], control := .next }
  else if choice = "6" then
    { printed := ["\n👋 Thanks for exploring agent architectures!"], control := .stop }
  else
    { printed := ["❌ Invalid choice. Please select 1-6."], control := .next }

/-- The try/except around the runner invocation inside
`demo_4_loop_workflow` (lines 481-496). `runResult` abstracts
`await runner.run_debug(...)`. Returns the lines this block prints and the
exception it lets propagate, if any: only `Exception` instances are caught
and printed, `BaseException`-only classes escape to `run`. -/
def demo4_run_section (runResult : Except PyExc (Option (List Event))) :
    List String × Option PyExc :=
  match runResult with
  | .ok response =>
    let story_text := extract_story_from_loop_response response
    let printed1 := "\n📖 Final Story:\n" ++
      (match story_text with
       | some s => s
       | none => "None")
    if story_text ≠ some "Response received but text content could not be extracted." then
      ([printed1, "\n✅ Story refinement completed successfully!"], none)
    else
      ([printed1, "\n✅ Story refinement completed! The loop exited after approval."], none)
  | .error (.exception msg) =>
    (["\n❌ Error during story generation: " ++ msg,
      "The loop agent encountered an issue. This can happen when the refinement process doesn't complete as expected."],
     none)
  | .error e => ([], some e)

end Interactive

/-- Whether a module-level script proceeds past its API-key setup or exits. -/
inductive StartupResult where
  | proceeds
  | exits (code : Nat)
deriving DecidableEq

namespace Interactive

/-- Embedding of `setup_gemini_api_key` from
`agent_architectures_interactive.py` (lines 26-48). `kaggle` models the
`kaggle_secrets` import and secret fetch: `none` is an `ImportError` on the
import, `some (.ok k)` a fetched secret, `some (.error e)` any other
exception from the vault. `env` is `os.getenv("GOOGLE_API_KEY")`. The result
pairs the returned boolean with the value written to
`os.environ["GOOGLE_API_KEY"]`, if any. -/
def setup_gemini_api_key (kaggle : Option (Except String String))
    (env : Option String) : Bool × Option String :=
  match kaggle with
  | some (.ok key) => (true, some key)
  | some (.error _) => (false, none)
  | none =>
    match env with
    | some k => if k = "" then (false, none) else (true, none)
    | none => (false, none)

/-- Module level of the interactive script (lines 51-52): exits with status 1
when `setup_gemini_api_key` returns `False`. -/
def startup (kaggle : Option (Except String String)) (env : Option String) :
    StartupResult :=
  if (setup_gemini_api_key kaggle env).1 then .proceeds else .exits 1

end Interactive

namespace SimpleAgent

/-- Embedding of `setup_gemini_api_key` from `simpleagent.py` (lines 24-42):
same sources as the interactive version, but the function returns `None` on
every path; the result is only the value written to
`os.environ["GOOGLE_API_KEY"]`, if any. -/
def setup_gemini_api_key (kaggle : Option (Except String String))
    (_env : Option String) : Option String :=
  match kaggle with
  | some (.ok key) => some key
  | _ => none

/-- Module level of `simpleagent.py` (line 45): the call result is discarded
and the script proceeds whether or not a key was found. -/
def startup (_kaggle : Option (Except String String)) (_env : Option String) :
    StartupResult :=
  .proceeds

end SimpleAgent

/-- The notion claim C7 quantifies over: a key was obtained either from the
Kaggle secrets vault (the module imported and the fetch succeeded) or, when
not running in Kaggle, from a non-empty `GOOGLE_API_KEY` environment
variable. -/
def claimC7_keyObtained (kaggle : Option (Except String String))
    (env : Option String) : Bool :=
  match kaggle with
  | some (.ok _) => true
  | some (.error _) => false
  | none =>
    match env with
    | some k => if k = "" then false else true
    | none => false

/-- Python `str.strip()` with no argument, restricted to the ASCII whitespace
characters it removes; the demos only use it on console input lines. -/
def pyStrip (s : String) : String :=
  let ws := fun c : Char =>
    c = ' ' || c = '\t' || c = '\n' || c = '\r' || c = '\x0b' || c = '\x0c'
  String.mk (((s.data.dropWhile ws).reverse.dropWhile ws).reverse)

namespace Interactive

/-- Topic selection of demo 1 (lines 217-222): strip the input line, treat
end-of-file as an empty line, and substitute the hard-coded default when the
result is empty. -/
def demo1_topic (line : Option String) : String :=
  let topic :=
    match line with
    | some s => pyStrip s
    | none => ""
  if topic = "" then
    "latest advancements in quantum computing and what they mean for AI"
  else topic

/-- The query demo 1 hands to `runner.run_debug` (line 228). -/
def demo1_query (line : Option String) : String := demo1_topic line

/-- Topic selection of demo 2 (lines 288-293). -/
def demo2_topic (line : Option String) : String :=
  let topic :=
    match line with
    | some s => pyStrip s
    | none => ""
  if topic = "" then
    "benefits of multi-agent systems for software developers"
  else topic

/-- The query demo 2 hands to `runner.run_debug` (line 299). -/
def demo2_query (line : Option String) : String :=
  "Write a blog post about " ++ demo2_topic line

/-- Prompt selection of demo 4 (lines 470-475). -/
def demo4_prompt (line : Option String) : String :=
  let prompt :=
    match line with
    | some s => pyStrip s
    | none => ""
  if prompt = "" then
    "a lighthouse keeper who discovers a mysterious, glowing map"
  else prompt

/-- The query demo 4 hands to `runner.run_debug` (line 482). -/
def demo4_query (line : Option String) : String :=
  "Write a short story about " ++ demo4_prompt line

end Interactive

theorem storyScan_eq_findSome (l : List Event) :
    Interactive.storyScan l =
      l.findSome? (fun e =>
        (Interactive.storyBranch e).orElse fun _ => Interactive.refinerBranch e) := by
  induction l with
  | nil => rfl
  | cons e rest ih =>
    show (match Interactive.storyBranch e with
          | some s => some s
          | none =>
            match Interactive.refinerBranch e with
            | some s => some s
            | none => Interactive.storyScan rest) = _
    cases hb : Interactive.storyBranch e with
    | some s => simp [List.findSome?_cons, hb, Option.orElse]
    | none =>
      cases hr : Interactive.refinerBranch e with
      | some s => simp [List.findSome?_cons, hb, hr, Option.orElse]
      | none => simp [List.findSome?_cons, hb, hr, Option.orElse, ih]

/-- Claim C1 (corrected): `extract_story_from_loop_response` scans the events
newest to oldest, but an event is selected only when its concatenated truthy
texts are longer than 50 characters and do not contain `"APPROVED"` as a
substring (not merely different from it), and a rejected event gets a second
chance through the `RefinerAgent` author branch; only when no event matches
either branch does the function fall back to `extract_response_text`. -/
theorem c1_amended (response : Option (List Event)) :
    Interactive.extract_story_from_loop_response response = storyAmended response := by
  cases response with
  | none => rfl
  | some r =>
    by_cases h : r = [] <;>
      simp [Interactive.extract_story_from_loop_response, storyAmended, h,
            storyScan_eq_findSome]

/-- Claim C1, counterexample to the claim as stated: at this two-event
response the selection rule of the claim picks the newest block (the short
text `"hi"`), while the code skips it, because its 2 characters do not pass
the length-over-50 test, and returns the older long text instead. -/
theorem c1_counterexample :
    claimC1_expected c1_input ≠
      Interactive.extract_story_from_loop_response c1_input := by
  decide

/-- Claim C2: on a non-empty response, `extract_response_text` of the
interactive script depends only on the last event, and falls back through
the claimed cascade: concatenated non-empty part texts, else the content
text attribute, else the event text attribute, else the
`Function executed:` message from `output_key`, else the fixed fallback
string. -/
theorem c2_cascade_of_last (r : List Event) (e : Event)
    (h : r.getLast? = some e) :
    Interactive.extract_response_text (some r) = claimC2_cascade e := by
  rcases e with ⟨content, text, okey, author⟩
  simp only [Interactive.extract_response_text, claimC2_cascade, h]
  rcases content with _ | ⟨parts, ctext⟩
  · cases text <;> cases okey <;> rfl
  · rcases parts with _ | (_ | ps)
    · cases ctext <;> cases text <;> cases okey <;> rfl
    · cases ctext <;> cases text <;> cases okey <;> rfl
    · by_cases hps : ps = []
      · subst hps
        cases ctext <;> cases text <;> cases okey <;> rfl
      · by_cases ht : truthyTexts ps = []
        · simp only [if_neg hps, ht, if_pos rfl, ite_true]
          cases ctext <;> cases text <;> cases okey <;> rfl
        · simp [hps, ht]

/-- Witness for claim C2 at a concrete one-event response. -/
theorem c2_witness :
    [textEvent "ok"].getLast? = some (textEvent "ok") ∧
    Interactive.extract_response_text (some [textEvent "ok"]) =
      claimC2_cascade (textEvent "ok") :=
  ⟨rfl, c2_cascade_of_last [textEvent "ok"] (textEvent "ok") rfl⟩

/-- Claim C3 (code bug): the `simpleagent.py` `extract_response_text` is not
total: on a last event holding a part whose `text` attribute is `None` (the
shape of a function-call part) the `''.join` raises a `TypeError`, and on a
`parts` attribute that is `None` the `for` loop raises a `TypeError`; the
interactive script handles the same input defensively. -/
theorem c3_join_type_error :
    SimpleAgent.extract_response_text c3_input =
      .error "TypeError: sequence item: expected str instance, NoneType found" ∧
    SimpleAgent.extract_response_text c3_input_none_parts =
      .error "TypeError: argument of type NoneType is not iterable" ∧
    Interactive.extract_response_text c3_input =
      some "Response received but text content could not be extracted." :=
  ⟨rfl, rfl, rfl⟩

/-- Claim C4: demo 4 builds its `LoopAgent` over the critic and refiner
agents with `max_iterations = 2`; under the spec-modelled loop semantics the
cycle executes at most two iterations, exactly one iteration fewer when the
exit tool fires in the first one, and only the refiner agent holds the
`exit_loop` function tool. -/
theorem c4_loop_bounded :
    Interactive.story_refinement_loop =
      AgentTree.loopA "StoryRefinementLoop"
        [.llm Interactive.critic_agent, .llm Interactive.refiner_agent] 2 ∧
    maxIterations Interactive.story_refinement_loop = 2 ∧
    (∀ exits : Nat → Bool,
      loopCount exits (maxIterations Interactive.story_refinement_loop) =
        if exits 0 then 1 else 2) ∧
    "exit_loop" ∈ Interactive.refiner_agent.tools ∧
    "exit_loop" ∉ Interactive.critic_agent.tools ∧
    "exit_loop" ∉ Interactive.initial_writer_agent.tools := by
  refine ⟨rfl, rfl, ?_, by decide, by decide, by decide⟩
  intro exits
  show loopCount exits 2 = _
  cases h0 : exits 0 <;> cases h1 : exits 1 <;> simp [loopCount, h0, h1]

/-- Claim C5 (corrected): an `Exception` raised while a selected demo runs is
caught by the menu loop, printed with its message, and control returns to
the menu; but a `KeyboardInterrupt` raised while a demo runs is caught and
ends the loop with a goodbye message instead of returning to the menu, and a
`SystemExit` propagates; demo 4 additionally catches `Exception`s from its
runner invocation and prints them, letting `BaseException`-only classes
escape. -/
theorem c5_amended (msg : String) :
    Interactive.runMenuStep "1" (.raise (.exception msg)) false =
      { printed := ["\n❌ Error running demo: " ++ msg], control := .next } ∧
    Interactive.runMenuStep "2" (.raise (.exception msg)) false =
      { printed := ["\n❌ Error running demo: " ++ msg], control := .next } ∧
    Interactive.runMenuStep "3" (.raise (.exception msg)) false =
      { printed := ["\n❌ Error running demo: " ++ msg], control := .next } ∧
    Interactive.runMenuStep "4" (.raise (.exception msg)) false =
      { printed := ["\n❌ Error running demo: " ++ msg], control := .next } ∧
    Interactive.runMenuStep "4" (.raise .keyboardInterrupt) false =
      { printed := ["\n\n👋 Demo interrupted. Goodbye!"], control := .stop } ∧
    Interactive.runMenuStep "4" (.raise .systemExit) false =
      { printed := [], control := .propagate .systemExit } ∧
    Interactive.demo4_run_section (.error (.exception msg)) =
      (["\n❌ Error during story generation: " ++ msg,
        "The loop agent encountered an issue. This can happen when the refinement process doesn't complete as expected."],
       none) ∧
    Interactive.demo4_run_section (.error .keyboardInterrupt) =
      ([], some .keyboardInterrupt) :=
  ⟨rfl, rfl, rfl, rfl, rfl, rfl, rfl, rfl⟩

/-- Claim C5, counterexample to the claim as stated: a `KeyboardInterrupt`
raised while demo 4 runs does not send the loop back to the menu. -/
theorem c5_counterexample :
    (Interactive.runMenuStep "4" (.raise .keyboardInterrupt) false).control ≠
      LoopControl.next := by
  decide

/-- Claim C6: demo 3 wires a `SequentialAgent` whose sub-agents are the
`ParallelAgent` over exactly the three topic researchers and then the
aggregator, whose instruction interpolates their three output keys; demo 2
wires a `SequentialAgent` running outline, writer, and editor in that
order. -/
theorem c6_wiring :
    Interactive.demo3_root_agent =
      AgentTree.seqA "ResearchSystem"
        [Interactive.parallel_research_team, .llm Interactive.aggregator_agent] ∧
    Interactive.parallel_research_team =
      AgentTree.parA "ParallelResearchTeam"
        [.llm Interactive.tech_researcher, .llm Interactive.health_researcher,
         .llm Interactive.finance_researcher] ∧
    (childAgents Interactive.parallel_research_team).map agentName =
      ["TechResearcher", "HealthResearcher", "FinanceResearcher"] ∧
    [Interactive.tech_researcher.output_key, Interactive.health_researcher.output_key,
     Interactive.finance_researcher.output_key] =
      [some "tech_research", some "health_research", some "finance_research"] ∧
    Interactive.aggregator_agent.instruction_refs =
      ["tech_research", "health_research", "finance_research"] ∧
    Interactive.demo2_root_agent =
      AgentTree.seqA "BlogPipeline"
        [.llm Interactive.outline_agent, .llm Interactive.writer_agent,
         .llm Interactive.editor_agent] :=
  ⟨rfl, rfl, rfl, rfl, rfl, rfl⟩

/-- Claim C7: both scripts load the key from the Kaggle vault when
`kaggle_secrets` imports and otherwise from `GOOGLE_API_KEY`; the
interactive version returns `True` exactly when a key was obtained, and its
module exits with status 1 otherwise, while `simpleagent.py` proceeds
regardless; the two versions write the same value to the environment. -/
theorem c7_api_key (kaggle : Option (Except String String)) (env : Option String) :
    (Interactive.setup_gemini_api_key kaggle env).1 = claimC7_keyObtained kaggle env ∧
    Interactive.startup kaggle env =
      (if claimC7_keyObtained kaggle env then .proceeds else .exits 1) ∧
    SimpleAgent.startup kaggle env = .proceeds ∧
    (Interactive.setup_gemini_api_key kaggle env).2 =
      SimpleAgent.setup_gemini_api_key kaggle env := by
  rcases kaggle with _ | k
  · rcases env with _ | s
    · exact ⟨rfl, rfl, rfl, rfl⟩
    · by_cases hs : s = "" <;>
        simp [Interactive.setup_gemini_api_key, Interactive.startup,
              SimpleAgent.startup, SimpleAgent.setup_gemini_api_key,
              claimC7_keyObtained, hs]
  · cases k with
    | ok key => exact ⟨rfl, rfl, rfl, rfl⟩
    | error e => exact ⟨rfl, rfl, rfl, rfl⟩

/-- Claim C8: on a `None` or empty response the two scripts diverge: the
interactive extractors return the fixed string `"No response received."`,
while `simpleagent.py` returns `str(response)`, that is `"None"` or
`"[]"`. -/
theorem c8_empty_divergence :
    Interactive.extract_response_text none = some "No response received." ∧
    Interactive.extract_response_text (some []) = some "No response received." ∧
    Interactive.extract_story_from_loop_response none = some "No response received." ∧
    Interactive.extract_story_from_loop_response (some []) = some "No response received." ∧
    SimpleAgent.extract_response_text none = .ok "None" ∧
    SimpleAgent.extract_response_text (some []) = .ok "[]" := by
  refine ⟨rfl, rfl, rfl, ?_, rfl, rfl⟩
  decide

theorem append_ne_empty (s t : String) (hs : s ≠ "") : (s ++ t) ≠ "" := by
  cases s with
  | mk ls =>
    cases t with
    | mk lt =>
      intro hst
      apply hs
      have hl : ls ++ lt = ([] : List Char) := congrArg String.data hst
      have hls : ls = [] := (List.append_eq_nil.mp hl).1
      rw [hls]

theorem demo1_topic_ne (line : Option String) : Interactive.demo1_topic line ≠ "" := by
  simp only [Interactive.demo1_topic]
  split
  · decide
  · rename_i h
    exact h

/-- Claim C9: in demos 1, 2, and 4 an empty (or whitespace-only) line and
end-of-file on the console are replaced by the hard-coded default topic or
story prompt, and the query handed to the runner is never empty. -/
theorem c9_default_inputs :
    Interactive.demo1_topic none =
      "latest advancements in quantum computing and what they mean for AI" ∧
    Interactive.demo1_topic (some "") =
      "latest advancements in quantum computing and what they mean for AI" ∧
    Interactive.demo2_topic none =
      "benefits of multi-agent systems for software developers" ∧
    Interactive.demo2_topic (some "") =
      "benefits of multi-agent systems for software developers" ∧
    Interactive.demo4_prompt none =
      "a lighthouse keeper who discovers a mysterious, glowing map" ∧
    Interactive.demo4_prompt (some "") =
      "a lighthouse keeper who discovers a mysterious, glowing map" ∧
    ∀ line : Option String,
      Interactive.demo1_query line ≠ "" ∧
      Interactive.demo2_query line ≠ "" ∧
      Interactive.demo4_query line ≠ "" := by
  refine ⟨rfl, rfl, rfl, rfl, rfl, rfl, fun line => ⟨?_, ?_, ?_⟩⟩
  · exact demo1_topic_ne line
  · exact append_ne_empty _ _ (by decide)
  · exact append_ne_empty _ _ (by decide)

theorem extract_frame_eq (response : Option (List Event)) :
    Interactive.extract_response_text_frame response =
      (Interactive.extract_response_text response, response) := by
  rcases response with _ | r
  · rfl
  · cases hl : r.getLast? with
    | none =>
      simp only [Interactive.extract_response_text_frame,
                 Interactive.extract_response_text, hl]
    | some e =>
      rcases e with ⟨content, text, okey, author⟩
      simp only [Interactive.extract_response_text_frame,
                 Interactive.extract_response_text, hl]
      rcases content with _ | ⟨parts, ctext⟩
      · cases text <;> cases okey <;> rfl
      · rcases parts with _ | (_ | ps)
        · cases ctext <;> cases text <;> cases okey <;> rfl
        · cases ctext <;> cases text <;> cases okey <;> rfl
        · by_cases hps : ps = []
          · subst hps
            cases ctext <;> cases text <;> cases okey <;> rfl
          · by_cases ht : truthyTexts ps = []
            · simp only [if_neg hps, ht, if_pos rfl, ite_true]
              cases ctext <;> cases text <;> cases okey <;> rfl
            · simp [hps, ht]

theorem story_frame_eq (response : Option (List Event)) :
    Interactive.extract_story_from_loop_response_frame response =
      (Interactive.extract_story_from_loop_response response, response) := by
  rcases response with _ | r
  · rfl
  · by_cases h : r = []
    · simp [Interactive.extract_story_from_loop_response_frame,
            Interactive.extract_story_from_loop_response, h]
    · cases hs : Interactive.storyScan r.reverse with
      | some s =>
        simp [Interactive.extract_story_from_loop_response_frame,
              Interactive.extract_story_from_loop_response, h, hs]
      | none =>
        simp [Interactive.extract_story_from_loop_response_frame,
              Interactive.extract_story_from_loop_response, h, hs,
              extract_frame_eq]

theorem simple_frame_eq (response : Option (List Event)) :
    SimpleAgent.extract_response_text_frame response =
      (SimpleAgent.extract_response_text response, response) := by
  rcases response with _ | r
  · rfl
  · cases hl : r.getLast? with
    | none =>
      simp only [SimpleAgent.extract_response_text_frame,
                 SimpleAgent.extract_response_text, hl]
    | some e =>
      rcases e with ⟨content, text, okey, author⟩
      simp only [SimpleAgent.extract_response_text_frame,
                 SimpleAgent.extract_response_text, hl]
      rcases content with _ | ⟨parts, ctext⟩
      · rfl
      · rcases parts with _ | (_ | ps)
        · rfl
        · rfl
        · by_cases hj : (ps.filterMap fun p => p.text).any (fun t => t.isNone)
          · simp [hj]
          · simp [hj]

/-- Claim C10: the three extraction routines are read-only over their
argument: the state-passing renderings hand back the response unchanged,
agree with the pure embeddings, and a second call on the state left by the
first yields the same result. -/
theorem c10_read_only (response : Option (List Event)) :
    Interactive.extract_response_text_frame response =
      (Interactive.extract_response_text response, response) ∧
    Interactive.extract_story_from_loop_response_frame response =
      (Interactive.extract_story_from_loop_response response, response) ∧
    SimpleAgent.extract_response_text_frame response =
      (SimpleAgent.extract_response_text response, response) ∧
    (Interactive.extract_response_text_frame
        ((Interactive.extract_response_text_frame response).2)).1 =
      (Interactive.extract_response_text_frame response).1 ∧
    (Interactive.extract_story_from_loop_response_frame
        ((Interactive.extract_story_from_loop_response_frame response).2)).1 =
      (Interactive.extract_story_from_loop_response_frame response).1 ∧
    (SimpleAgent.extract_response_text_frame
        ((SimpleAgent.extract_response_text_frame response).2)).1 =
      (SimpleAgent.extract_response_text_frame response).1 := by
  refine ⟨extract_frame_eq response, story_frame_eq response,
          simple_frame_eq response, ?_, ?_, ?_⟩ <;>
    simp [extract_frame_eq, story_frame_eq, simple_frame_eq]


